import Mathlib

/-
Shallow embedding of `src/bin/generate-status.py`, a single-pass script that
gathers host metrics and per-account datastore statistics from a PDS
(personal data server) directory layout and renders a static HTML status
page.

Modelling conventions:
- Python floats are embedded as exact rationals (`ℚ`).  Every arithmetic
  operation the script performs on them (division by 1024, multiplication
  by a power of ten, comparison with integers) is exact on binary floating
  point numbers of this magnitude, so the rational semantics agrees with
  the float semantics on the inputs the claims are about.
- The rational steps are implemented through `mkRat`-based helpers
  (`qdivNat`, `qmulNat`) so that concrete runs reduce inside the kernel;
  lemmas `qdivNat_eq` and `qmulNat_eq` identify them with ordinary
  division and multiplication on `ℚ`.
- Fallible calls are embedded as `Option`/`Except` values; the operating
  system state a call inspects (interface counter tables, directory
  trees, SQLite tables) is passed in explicitly.
-/

/-- Division of an exact rational by a natural number, written so that it
reduces in the kernel (`Rat.div` is irreducible).  `qdivNat_eq` proves it
equal to ordinary division.  This embeds the script's `size /= 1024.0`. -/
def qdivNat (q : ℚ) (n : ℕ) : ℚ := mkRat q.num (q.den * n)

/-- Multiplication of an exact rational by a natural number, kernel
reducible; `qmulNat_eq` identifies it with ordinary multiplication. -/
def qmulNat (q : ℚ) (n : ℕ) : ℚ := mkRat (q.num * n) q.den

/-- Banker's rounding (round half to even) of an exact rational to an
integer: the rounding CPython applies when formatting a float with a
fixed number of decimal places. -/
def roundHalfEven (q : ℚ) : ℤ :=
  let f := q.num.ediv (q.den : ℤ)
  let r := q.num - f * (q.den : ℤ)
  if 2 * r < (q.den : ℤ) then f
  else if (q.den : ℤ) < 2 * r then f + 1
  else if f % 2 = 0 then f else f + 1

/-- The decimal digits of `n`, padded on the left with zeros to exactly
`dp` digits (used for the fractional part of fixed-point formatting). -/
def natDigitsPadded (n : Nat) (dp : Nat) : String :=
  match dp with
  | 0 => ""
  | dp + 1 => natDigitsPadded (n / 10) dp ++ toString (n % 10)

/-- CPython's fixed-point float formatting at an exactly representable
value: the embedding of the f-string conversion `{size:.{decimal_places}f}`
with `dp` decimal places (correct rounding, ties to even). -/
def formatFixed (dp : Nat) (q : ℚ) : String :=
  let n := roundHalfEven (qmulNat q (10 ^ dp))
  let a := n.natAbs
  (if n < 0 then "-" else "") ++ toString (a / 10 ^ dp) ++ "." ++ natDigitsPadded (a % 10 ^ dp) dp

/-- The unit ladder of `human_readable_size`, in iteration order. -/
def human_units : List String := ["B", "KB", "MB", "GB", "TB", "PB"]

/-- The `for unit in [...]` loop body of `human_readable_size` with one
decimal place: return `f"(size):.1f (unit)"` as soon as `size < 1024.0 or
unit == "PB"`, otherwise divide `size` by 1024 and continue.  The `[]`
case is the `return f"..."` line after the loop, which is unreachable
because the loop always returns at `"PB"`. -/
def hrs_go : ℚ → List String → String
  | size, [] => formatFixed 1 size ++ " PB"
  | size, u :: rest =>
      if size < 1024 ∨ u = "PB" then formatFixed 1 size ++ " " ++ u
      else hrs_go (qdivNat size 1024) rest

/-- `human_readable_size(size)` with the default `decimal_places=1`:
convert a size in bytes to a human-readable string. -/
def human_readable_size (size : ℚ) : String :=
  hrs_go size human_units

/-- Two-digit zero padding, as in Python's `timedelta` rendering of
minutes and seconds. -/
def twoDigits (n : Nat) : String :=
  if n < 10 then "0" ++ toString n else toString n

/-- Python's `str(timedelta(seconds=s))` for a nonnegative number of
seconds: `"H:MM:SS"`, prefixed with `"D day(s), "` when at least one full
day is present. -/
def timedeltaStr (s : Nat) : String :=
  let days := s / 86400
  let rem := s % 86400
  let hms := toString (rem / 3600) ++ ":" ++ twoDigits (rem % 3600 / 60) ++ ":" ++ twoDigits (rem % 60)
  if days = 0 then hms
  else if days = 1 then "1 day, " ++ hms
  else toString days ++ " days, " ++ hms

/-- One row of the per-interface table returned by
`psutil.net_io_counters(pernic=True)`: the cumulative byte counters the
script reads. -/
structure NetCounters where
  bytes_sent : Nat
  bytes_recv : Nat

/-- The host state `get_system_metrics` inspects, passed explicitly:
`os.getloadavg()`, `psutil.cpu_percent(interval=1)`, `psutil.disk_usage("/")`,
the per-interface counter table, `psutil.boot_time()` and the current
time (both as whole seconds; `psutil.disk.percent` is pre-rounded by
psutil to one decimal place). -/
structure SysInputs where
  loadavg1 : ℚ
  loadavg5 : ℚ
  loadavg15 : ℚ
  cpu_percent : ℚ
  disk_total : Nat
  disk_used : Nat
  disk_percent : ℚ
  net_io_counters : String → Option NetCounters
  boot_time : Nat
  now : Nat

/-- The dictionary returned by `get_system_metrics`. -/
structure Metrics where
  load1 : ℚ
  load5 : ℚ
  load15 : ℚ
  cpu_percent : ℚ
  disk_total : Nat
  disk_used : Nat
  disk_percent : ℚ
  net_sent : Nat
  net_recv : Nat
  uptime : String

/-- `get_system_metrics()`: gather system load, CPU usage, root-disk
stats, and network usage.  The network counters come from
`net_io_counters(pernic=True).get("eth0")`; `net.bytes_sent if net else 0`
turns an absent interface into zero. -/
def get_system_metrics (s : SysInputs) : Metrics :=
  let net := s.net_io_counters "eth0"
  { load1 := s.loadavg1
    load5 := s.loadavg5
    load15 := s.loadavg15
    cpu_percent := s.cpu_percent
    disk_total := s.disk_total
    disk_used := s.disk_used
    disk_percent := s.disk_percent
    net_sent := match net with | some n => n.bytes_sent | none => 0
    net_recv := match net with | some n => n.bytes_recv | none => 0
    uptime := timedeltaStr (s.now - s.boot_time) }

/-- A directory tree as seen by `os.walk`: the files of the directory
(name together with the outcome of `os.path.getsize` on them, `none`
meaning the call raises `OSError`), and its named subdirectories. -/
inductive FsTree where
  | dir (files : List (String × Option Nat)) (subdirs : List (String × FsTree))

mutual
/-- The `files` lists yielded by `os.walk` on an existing directory, in
top-down walk order (the order the script's outer `for` loop sees). -/
def FsTree.walk : FsTree → List (List (String × Option Nat))
  | .dir files subdirs => files :: FsTree.walkList subdirs

/-- Walk continuation over the subdirectory list. -/
def FsTree.walkList : List (String × FsTree) → List (List (String × Option Nat))
  | [] => []
  | (_, t) :: rest => t.walk ++ FsTree.walkList rest
end

/-- `os.walk(path)` at the level of `files` lists: a path that does not
exist (or is not a directory) yields no entries at all. -/
def os_walk_files : Option FsTree → List (List (String × Option Nat))
  | none => []
  | some t => t.walk

/-- `get_directory_usage(path)`: total disk usage of a directory.  The
argument is the directory tree the path resolves to (`none` when the
path does not exist).  The nested folds are the two `for` loops; the
`match` on a file's size is the `try: total += os.path.getsize(fp)
except OSError: pass` body. -/
def get_directory_usage (fs : Option FsTree) : Nat :=
  (os_walk_files fs).foldl
    (fun total files =>
      files.foldl
        (fun total f => match f.2 with | some n => total + n | none => total)
        total)
    0

/-- The flat list of per-file `os.path.getsize` outcomes of a walk, in
walk order (for stating properties of `get_directory_usage`). -/
def walk_sizes (t : FsTree) : List (Option Nat) :=
  t.walk.flatMap (fun files => files.map Prod.snd)

/-- One row of the `account` table of `account.sqlite`; the script only
selects the `did` column. -/
structure AccountRow where
  did : String

/-- `SELECT COUNT(*) FROM account`: one increment per stored row. -/
def sqlCountStar (rows : List AccountRow) : Nat :=
  rows.foldl (fun acc _ => acc + 1) 0

/-- `get_account_data(pds_path)`: total account count and list of DIDs
from the account database.  The table is given as its row list in
storage order; `SELECT did FROM account` without `ORDER BY` scans it in
that order. -/
def get_account_data (table : List AccountRow) : Nat × List String :=
  (sqlCountStar table, table.map AccountRow.did)

/-- Contents of one `store.sqlite`: the two row counts the script
queries (`SELECT COUNT(*) FROM record`, `SELECT COUNT(*) FROM blob`). -/
structure StoreDb where
  record_count : Nat
  blob_count : Nat

/-- One directory visited by the `os.walk(actors_root)` loop of
`find_store_db`: its basename, its file names, and the store database it
holds (meaningful only when `"store.sqlite"` is among `files`). -/
structure WalkEntry where
  basename : String
  files : List String
  store : StoreDb

/-- `find_store_db(pds_path, did)`: scan the walk of the actors root, in
walk order, for the first directory whose basename is the DID and whose
files include `store.sqlite`; `none` is the `return None` after the
loop. -/
def find_store_db (actors : List WalkEntry) (did : String) : Option StoreDb :=
  match actors with
  | [] => none
  | e :: rest =>
      if e.basename = did ∧ "store.sqlite" ∈ e.files then some e.store
      else find_store_db rest did

/-- `get_store_data(pds_path, did)`: record and blob counts from the
store database; raises `FileNotFoundError` (embedded as `Except.error`)
when `find_store_db` comes back empty. -/
def get_store_data (actors : List WalkEntry) (did : String) : Except String (Nat × Nat) :=
  match find_store_db actors did with
  | none => Except.error ("store.sqlite not found for DID " ++ did)
  | some db => Except.ok (db.record_count, db.blob_count)

/-- The PDS directory layout the per-account loop of `main` consults:
the walk of `actors/` and, for each DID, the tree of `blocks/<did>`
(`none` when `os.path.isdir` is false on that path). -/
structure Pds where
  actors : List WalkEntry
  blocks : String → Option FsTree

/-- A record or blob count as it ends up in a row: either the integer
from the store database or the string `"Error"`. -/
inductive CountVal where
  | count (n : Nat)
  | error
deriving DecidableEq

/-- How a `CountVal` prints inside the template (`str` of the value). -/
def countValStr : CountVal → String
  | .count n => toString n
  | .error => "Error"

/-- One element of `usage_list`: `(did, rec_count, blob_count, size)`. -/
abbrev UsageRow := String × CountVal × CountVal × Nat

/-- One iteration of the `for did in dids` loop of `main`: the
`try/except` around `get_store_data` substitutes `"Error"` for both
counts on any exception, and the blocks-directory size is
`get_directory_usage(block_dir) if os.path.isdir(block_dir) else 0`. -/
def account_row (p : Pds) (did : String) : UsageRow :=
  let counts : CountVal × CountVal :=
    match get_store_data p.actors did with
    | .ok (r, b) => (CountVal.count r, CountVal.count b)
    | .error _ => (CountVal.error, CountVal.error)
  let size : Nat :=
    match p.blocks did with
    | some t => get_directory_usage (some t)
    | none => 0
  (did, counts.1, counts.2, size)

/-- The fully assembled `usage_list` of `main`, one `append` per
enumerated DID, in enumeration order. -/
def build_usage_list (p : Pds) (dids : List String) : List UsageRow :=
  dids.map (account_row p)


/-- `markupsafe.escape` as applied by Jinja2 autoescaping: replace the
five HTML-significant characters by entities.  Character codes: 38 is
the ampersand, 60 is the less-than sign, 62 is the greater-than sign,
34 is the double quote, 39 is the single quote. -/
def jinja_escape (s : String) : String :=
  String.join (s.toList.map fun c =>
    if c = Char.ofNat 38 then "&amp;"
    else if c = Char.ofNat 60 then "&lt;"
    else if c = Char.ofNat 62 then "&gt;"
    else if c = Char.ofNat 34 then "&#34;"
    else if c = Char.ofNat 39 then "&#39;"
    else String.singleton c)

/-- The text a Jinja2 substitution contributes to the output: the
straight value when the environment has autoescaping off, its escaped
form when autoescaping is on. -/
def render_var (autoescape : Bool) (s : String) : String :=
  if autoescape then jinja_escape s else s

/-- `psutil` percent values are pre-rounded to one decimal place, so
Python's `str()` of them prints exactly one fractional digit; this is
how the template's bare `metrics.disk_percent` substitution prints. -/
def pyFloatStr (q : ℚ) : String := formatFixed 1 q

/-- One iteration of the template's `for did, rec, blob, size in
usage_list` block, with the literal text surrounding the loop tags kept
as Jinja2 emits it (no `trim_blocks`/`lstrip_blocks`). -/
def render_row (ae : Bool) (r : UsageRow) : String :=
  "\n                <tr>\n                    <td>" ++ render_var ae r.1
    ++ "</td>\n                    <td>" ++ render_var ae (countValStr r.2.1)
    ++ "</td>\n                    <td>" ++ render_var ae (countValStr r.2.2.1)
    ++ "</td>\n                    <td>" ++ render_var ae (human_readable_size (r.2.2.2 : ℚ))
    ++ "</td>\n                </tr>\n                "

/-- The whole rendered loop body, one block per usage row in order. -/
def render_usage_rows (ae : Bool) (rows : List UsageRow) : String :=
  String.join (rows.map (render_row ae))

/-- The template of `create_template_env`, instantiated: the full HTML
document produced by `template.render(...)` in an environment whose
autoescape flag is `autoescape`.  Static text is transcribed from the
template string; each substitution goes through `render_var`. -/
def rendered_html (autoescape : Bool) (m : Metrics) (generated : String)
    (total_accounts : Nat) (usage_list : List UsageRow) (pds_path : String) : String :=
  "\n<!DOCTYPE html>\n<html lang=\"en\">\n<head>\n    <meta charset=\"UTF-8\">\n    <title>Server Status</title>\n    <link href=\"https://cdn.jsdelivr.net/npm/bootstrap@5.3.0/dist/css/bootstrap.min.css\" rel=\"stylesheet\">\n    <link href=\"https://cdn.jsdelivr.net/npm/bootstrap-dark-5@1.1.3/dist/css/bootstrap-dark.min.css\" rel=\"stylesheet\">\n    <style>\n        body \x7b\n            padding: 20px;\n        \x7d\n    </style>\n</head>\n<body class=\"bg-dark text-light\">\n    <div class=\"container\">\n        <h1 class=\"my-4\">Server Status</h1>\n        <p>Report generated: "
    ++ render_var autoescape generated
    ++ " (uptime: " ++ render_var autoescape m.uptime
    ++ ")</p>\n\n        <h2>System Metrics</h2>\n        <table class=\"table table-dark table-bordered\">\n            <tr>\n                <th>Load (1m)</th>\n                <th>Load (5m)</th>\n                <th>Load (15m)</th>\n                <th>CPU %</th>\n                <th>Disk (/)</th>\n                <th>Net Sent</th>\n                <th>Net Received</th>\n            </tr>\n            <tr>\n                <td>"
    ++ render_var autoescape (formatFixed 2 m.load1)
    ++ "</td>\n                <td>" ++ render_var autoescape (formatFixed 2 m.load5)
    ++ "</td>\n                <td>" ++ render_var autoescape (formatFixed 2 m.load15)
    ++ "</td>\n                <td>" ++ render_var autoescape (formatFixed 1 m.cpu_percent)
    ++ "%</td>\n                <td>" ++ render_var autoescape (human_readable_size (m.disk_used : ℚ))
    ++ " / " ++ render_var autoescape (human_readable_size (m.disk_total : ℚ))
    ++ " (" ++ render_var autoescape (pyFloatStr m.disk_percent)
    ++ "%)</td>\n                <td>" ++ render_var autoescape (human_readable_size (m.net_sent : ℚ))
    ++ "</td>\n                <td>" ++ render_var autoescape (human_readable_size (m.net_recv : ℚ))
    ++ "</td>\n            </tr>\n        </table>\n\n        <h2>Accounts in "
    ++ render_var autoescape pds_path
    ++ "</h2>\n        <p>Total accounts: " ++ render_var autoescape (toString total_accounts)
    ++ "</p>\n        <table class=\"table table-dark table-striped table-bordered\">\n            <thead>\n                <tr>\n                    <th>DID</th>\n                    <th>Record Count</th>\n                    <th>Blob Count</th>\n                    <th>Blocks Dir Size</th>\n                </tr>\n            </thead>\n            <tbody>\n                "
    ++ render_usage_rows autoescape usage_list
    ++ "\n            </tbody>\n        </table>\n    </div>\n</body>\n</html>\n"

/-- The autoescape behaviour of the environment built by
`create_template_env`: `select_autoescape(["html", "xml"])` escapes
templates created from strings (its `default_for_string` is true). -/
def create_template_env_autoescape : Bool := true

/-- The autoescape behaviour of a bare `Environment()`: off.  `main`
renders through `Environment().from_string(...)` — the environment from
`create_template_env` is not the one that renders, because the line
`env.from_string = template_str` replaced its `from_string` method with
the raw template string. -/
def jinja_default_autoescape : Bool := false

/-- The document `main` writes to the output file: metrics are gathered,
DIDs enumerated, the per-account loop assembles `usage_list`, and the
template is rendered by `Environment().from_string(template)` — the
fresh default environment, so with `jinja_default_autoescape`. -/
def main_output (sys : SysInputs) (table : List AccountRow) (p : Pds)
    (pds_path generated : String) : String :=
  rendered_html jinja_default_autoescape (get_system_metrics sys) generated
    (get_account_data table).1 (build_usage_list p (get_account_data table).2) pds_path

/-- Concrete host state for instantiating theorems: every counter table
lookup misses (no interface named `eth0` exists). -/
def exSysInputs : SysInputs :=
  { loadavg1 := 1
    loadavg5 := 2
    loadavg15 := 3
    cpu_percent := 25
    disk_total := 2048
    disk_used := 1024
    disk_percent := 50
    net_io_counters := fun _ => none
    boot_time := 100
    now := 90261 }

/-- An account identifier made of HTML-significant characters. -/
def exEvilDid : String := "<b>x</b>"

/-- An account table holding only the HTML-significant identifier. -/
def exEvilTable : List AccountRow := [⟨exEvilDid⟩]

/-- A PDS state with no actor directories and no blocks directories. -/
def exEmptyPds : Pds := { actors := [], blocks := fun _ => none }

/-- A directory tree in which every size lookup succeeds. -/
def exTreeAll : FsTree :=
  FsTree.dir [("a", some 3)] [("s1", FsTree.dir [("b", some 4), ("c", some 5)] [])]

/-- A directory tree in which one size lookup raises `OSError`. -/
def exTreeErr : FsTree :=
  FsTree.dir [("a", some 3), ("bad", none)] [("s1", FsTree.dir [("c", some 5)] [])]

/-- A PDS state with store databases for alice and carol but none for
bob. -/
def exPdsTwo : Pds :=
  { actors :=
      [ { basename := "did:alice", files := ["store.sqlite"], store := { record_count := 2, blob_count := 1 } }
      , { basename := "did:carol", files := ["store.sqlite"], store := { record_count := 5, blob_count := 3 } } ]
    blocks := fun _ => none }

/-- The DID list enumerated in the `exPdsTwo` scenario. -/
def exDidsTwo : List String := ["did:alice", "did:bob", "did:carol"]

/-- Rewriting `qdivNat` as ordinary rational division. -/
theorem qdivNat_eq (q : ℚ) (n : ℕ) : qdivNat q n = q / n := by
  rw [qdivNat, Rat.mkRat_eq_div]
  push_cast
  rw [div_mul_eq_div_div, Rat.num_div_den]

/-- Rewriting `qmulNat` as ordinary rational multiplication. -/
theorem qmulNat_eq (q : ℚ) (n : ℕ) : qmulNat q n = q * n := by
  rw [qmulNat, Rat.mkRat_eq_div]
  push_cast
  rw [mul_comm (q.num : ℚ) n, mul_div_assoc, Rat.num_div_den, mul_comm]

/-- The inner file loop of `get_directory_usage` accumulates exactly the
sizes whose lookup succeeded. -/
theorem foldl_getsize (files : List (String × Option Nat)) (acc : Nat) :
    files.foldl (fun total f => match f.2 with | some n => total + n | none => total) acc
      = acc + ((files.map Prod.snd).filterMap id).sum := by
  induction files generalizing acc with
  | nil => simp
  | cons f fs ih =>
      cases h : f.2 with
      | none =>
          simp only [List.foldl_cons, List.map_cons, List.filterMap_cons, h, id]
          rw [ih]
      | some n =>
          simp only [List.foldl_cons, List.map_cons, List.filterMap_cons, h, id, List.sum_cons]
          rw [ih, Nat.add_assoc]

/-- The outer walk loop of `get_directory_usage` accumulates exactly the
successful sizes of the whole walk. -/
theorem foldl_walk (ll : List (List (String × Option Nat))) (acc : Nat) :
    ll.foldl
        (fun total files =>
          files.foldl (fun total f => match f.2 with | some n => total + n | none => total) total)
        acc
      = acc + ((ll.flatMap (fun files => files.map Prod.snd)).filterMap id).sum := by
  induction ll generalizing acc with
  | nil => simp
  | cons l ls ih =>
      simp only [List.foldl_cons, List.flatMap_cons, List.filterMap_append, List.sum_append]
      rw [foldl_getsize, ih, Nat.add_assoc]

/-- `get_directory_usage` on an existing tree equals the sum of the
successful size lookups of its walk. -/
theorem get_directory_usage_eq (t : FsTree) :
    get_directory_usage (some t) = ((walk_sizes t).filterMap id).sum := by
  simp [get_directory_usage, os_walk_files, walk_sizes, foldl_walk]

/-- `SELECT COUNT(*)` over a row list counts its length. -/
theorem sqlCountStar_eq_length (rows : List AccountRow) :
    sqlCountStar rows = rows.length := by
  have aux : ∀ (l : List AccountRow) (acc : Nat), l.foldl (fun a _ => a + 1) acc = acc + l.length := by
    intro l
    induction l with
    | nil => simp
    | cons r rs ih => intro acc; simp [ih]; omega
  simpa [sqlCountStar] using aux rows 0

/-- C3: for every account table holding N rows, `get_account_data`
returns a total count equal to N together with the list of exactly the
N identifiers in the table's storage order; the returned count equals
the length of the returned identifier list. -/
theorem c3_account_enumeration (table : List AccountRow) :
    (get_account_data table).1 = table.length ∧
    (get_account_data table).2 = table.map AccountRow.did ∧
    (get_account_data table).1 = (get_account_data table).2.length := by
  refine ⟨sqlCountStar_eq_length table, rfl, ?_⟩
  simp [get_account_data, sqlCountStar_eq_length]

/-- C4: `human_readable_size` with the default of one decimal place maps
0 to "0.0 B", 1536 to "1.5 KB", and 1073741824 to "1.0 GB". -/
theorem c4_formatting_examples :
    human_readable_size 0 = "0.0 B" ∧
    human_readable_size 1536 = "1.5 KB" ∧
    human_readable_size 1073741824 = "1.0 GB" := by
  refine ⟨by decide, by decide, by decide⟩

/-- C5: on a directory tree in which every file's size lookup succeeds,
`get_directory_usage` returns exactly the sum of the byte sizes of all
files reachable by the recursive walk. -/
theorem c5_exact_byte_sum (t : FsTree) (sizes : List Nat)
    (h : walk_sizes t = sizes.map some) :
    get_directory_usage (some t) = sizes.sum := by
  rw [get_directory_usage_eq, h]
  simp [List.filterMap_map]

/-- Witness for C5 at a concrete two-level tree with sizes 3, 4, 5. -/
theorem c5_exact_byte_sum_witness :
    walk_sizes exTreeAll = [3, 4, 5].map some ∧
    get_directory_usage (some exTreeAll) = [3, 4, 5].sum :=
  ⟨by decide, c5_exact_byte_sum exTreeAll [3, 4, 5] (by decide)⟩

/-- C6: if the size lookup of some files of the tree raises `OSError`,
`get_directory_usage` does not propagate the error (it is a total
function into `Nat`) and returns the sum of the sizes of exactly those
files whose size lookup succeeds. -/
theorem c6_skips_failed_lookups (t : FsTree) (_h : none ∈ walk_sizes t) :
    get_directory_usage (some t) = ((walk_sizes t).filterMap id).sum :=
  get_directory_usage_eq t

/-- Witness for C6 at a tree where one lookup fails: only the successful
sizes 3 and 5 are summed. -/
theorem c6_skips_failed_lookups_witness :
    none ∈ walk_sizes exTreeErr ∧ get_directory_usage (some exTreeErr) = 8 :=
  ⟨by decide, (c6_skips_failed_lookups exTreeErr (by decide)).trans (by decide)⟩

/-- C7: the directory size recorded for an account whose path does not
exist is zero: `get_directory_usage` of a non-existent path is 0, and
the per-account loop records size 0 whenever the blocks directory of
the account is absent. -/
theorem c7_missing_directory_zero :
    get_directory_usage none = 0 ∧
    ∀ (p : Pds) (did : String), p.blocks did = none → (account_row p did).2.2.2 = 0 := by
  refine ⟨rfl, ?_⟩
  intro p did h
  simp [account_row, h]

/-- Witness for C7 at a PDS with no blocks directories. -/
theorem c7_missing_directory_zero_witness :
    get_directory_usage none = 0 ∧ (account_row exEmptyPds "did:plc:x").2.2.2 = 0 :=
  ⟨c7_missing_directory_zero.1, c7_missing_directory_zero.2 exEmptyPds "did:plc:x" rfl⟩

/-- C8: when the hard-coded interface name "eth0" is absent from the
per-interface counter table, `get_system_metrics` reports zero for both
network byte fields instead of failing. -/
theorem c8_eth0_absent_zero (s : SysInputs) (h : s.net_io_counters "eth0" = none) :
    (get_system_metrics s).net_sent = 0 ∧ (get_system_metrics s).net_recv = 0 := by
  simp [get_system_metrics, h]

/-- Witness for C8 at a host state with an empty counter table. -/
theorem c8_eth0_absent_zero_witness :
    (get_system_metrics exSysInputs).net_sent = 0 ∧ (get_system_metrics exSysInputs).net_recv = 0 :=
  c8_eth0_absent_zero exSysInputs rfl

/-- C9: the assembled usage list contains exactly one row per
enumerated identifier, appearing in the same order as the enumerator
returned the identifiers (each row's first component is its DID). -/
theorem c9_one_row_per_did_in_order (p : Pds) (dids : List String) :
    (build_usage_list p dids).map (fun r => r.1) = dids ∧
    (build_usage_list p dids).length = dids.length := by
  constructor
  · have hcomp : ((fun r : UsageRow => r.1) ∘ account_row p) = id := funext fun d => rfl
    rw [build_usage_list, List.map_map, hcomp, List.map_id]
  · simp [build_usage_list]

/-- C2: if the store lookup fails for some enumerated account and
succeeds for the others, the run completes with one row per DID,
exactly the failing account's row carries the "Error" marker for both
counts, and every other row carries the counts of its successful
lookup. -/
theorem c2_error_marker_isolated (p : Pds) (dids : List String) (d : String)
    (hmem : d ∈ dids)
    (hfail : ∃ msg, get_store_data p.actors d = Except.error msg)
    (hok : ∀ e ∈ dids, e ≠ d → ∃ rb, get_store_data p.actors e = Except.ok rb) :
    (build_usage_list p dids).length = dids.length ∧
    (∃ row ∈ build_usage_list p dids,
        row.1 = d ∧ row.2.1 = CountVal.error ∧ row.2.2.1 = CountVal.error) ∧
    (∀ row ∈ build_usage_list p dids, row.1 ≠ d →
        ∃ r b, get_store_data p.actors row.1 = Except.ok (r, b) ∧
          row.2.1 = CountVal.count r ∧ row.2.2.1 = CountVal.count b) := by
  obtain ⟨msg, hm⟩ := hfail
  refine ⟨by simp [build_usage_list], ?_, ?_⟩
  · refine ⟨account_row p d, List.mem_map_of_mem (account_row p) hmem, rfl, ?_, ?_⟩ <;>
      simp [account_row, hm]
  · intro row hrow hne
    obtain ⟨e, he, rfl⟩ := List.mem_map.1 hrow
    have h1 : (account_row p e).1 = e := rfl
    rw [h1] at hne ⊢
    obtain ⟨⟨r, b⟩, hok_e⟩ := hok e he hne
    exact ⟨r, b, hok_e, by simp [account_row, hok_e], by simp [account_row, hok_e]⟩

/-- Witness for C2: alice and carol have store databases, bob does not;
bob's row alone shows the error marker and the others carry their
counts. -/
theorem c2_error_marker_isolated_witness :
    (build_usage_list exPdsTwo exDidsTwo).length = exDidsTwo.length ∧
    (∃ row ∈ build_usage_list exPdsTwo exDidsTwo,
        row.1 = "did:bob" ∧ row.2.1 = CountVal.error ∧ row.2.2.1 = CountVal.error) ∧
    (∀ row ∈ build_usage_list exPdsTwo exDidsTwo, row.1 ≠ "did:bob" →
        ∃ r b, get_store_data exPdsTwo.actors row.1 = Except.ok (r, b) ∧
          row.2.1 = CountVal.count r ∧ row.2.2.1 = CountVal.count b) :=
  c2_error_marker_isolated exPdsTwo exDidsTwo "did:bob" (by decide)
    ⟨"store.sqlite not found for DID did:bob", rfl⟩
    (by
      intro e he hne
      simp [exDidsTwo] at he
      rcases he with rfl | rfl | rfl
      · exact ⟨(2, 1), rfl⟩
      · exact absurd rfl hne
      · exact ⟨(5, 3), rfl⟩)

/-- C10: for every size of at least 1024 to the fifth power, the loop of
`human_readable_size` stops dividing at the "PB" unit: the result is the
size divided by 1024 to the fifth, formatted to one decimal place, with
unit "PB" and nothing beyond it. -/
theorem c10_pb_is_final_unit (size : ℚ) (h : 1024 ^ 5 ≤ size) :
    human_readable_size size = formatFixed 1 (size / 1024 ^ 5) ++ " PB" := by
  have h1 : ¬ size < 1024 := not_lt.2 (le_trans (by norm_num) h)
  have h2 : ¬ size / 1024 < 1024 := by
    rw [not_lt, le_div_iff₀ (by norm_num : (0:ℚ) < 1024)]
    exact le_trans (by norm_num) h
  have h3 : ¬ size / 1024 / 1024 < 1024 := by
    rw [not_lt, div_div, le_div_iff₀ (by norm_num : (0:ℚ) < 1024 * 1024)]
    exact le_trans (by norm_num) h
  have h4 : ¬ size / 1024 / 1024 / 1024 < 1024 := by
    rw [not_lt, div_div, div_div, le_div_iff₀ (by norm_num : (0:ℚ) < 1024 * (1024 * 1024))]
    exact le_trans (by norm_num) h
  have h5 : ¬ size / 1024 / 1024 / 1024 / 1024 < 1024 := by
    rw [not_lt, div_div, div_div, div_div,
      le_div_iff₀ (by norm_num : (0:ℚ) < 1024 * (1024 * (1024 * 1024)))]
    exact le_trans (by norm_num) h
  have harg : size / 1024 / 1024 / 1024 / 1024 / 1024 = size / 1024 ^ 5 := by
    rw [div_div, div_div, div_div, div_div]
    norm_num
  simp only [human_readable_size, human_units, hrs_go, qdivNat_eq, Nat.cast_ofNat]
  rw [if_neg (not_or.2 ⟨h1, by decide⟩), if_neg (not_or.2 ⟨h2, by decide⟩),
    if_neg (not_or.2 ⟨h3, by decide⟩), if_neg (not_or.2 ⟨h4, by decide⟩),
    if_neg (not_or.2 ⟨h5, by decide⟩), if_pos (Or.inr trivial), harg,
    String.append_assoc]
  rfl

/-- Witness for C10 at 1024 to the sixth power bytes. -/
theorem c10_pb_is_final_unit_witness :
    (1024:ℚ) ^ 5 ≤ 1152921504606846976 ∧
    human_readable_size (1152921504606846976 : ℚ) = "1024.0 PB" := by
  refine ⟨by norm_num, ?_⟩
  rw [c10_pb_is_final_unit (1152921504606846976 : ℚ) (by norm_num),
    show (1152921504606846976 : ℚ) / 1024 ^ 5 = 1024 by norm_num]
  decide

/-- Taking the character list of an appended string splits into the two
character lists. -/
theorem toList_append (a b : String) : (a ++ b).toList = a.toList ++ b.toList := rfl

/-- An infix of a list is an infix of that list extended on the right. -/
theorem infix_append_left {α : Type} {l m : List α} (n : List α) (h : l <:+: m) :
    l <:+: m ++ n := by
  obtain ⟨s, t, rfl⟩ := h
  exact ⟨s, t ++ n, by simp⟩

/-- An infix of a list is an infix of that list extended on the left. -/
theorem infix_append_right {α : Type} {l m : List α} (n : List α) (h : l <:+: m) :
    l <:+: n ++ m := by
  obtain ⟨s, t, rfl⟩ := h
  exact ⟨n ++ s, t, by simp⟩

set_option maxRecDepth 100000 in
/-- C1: evaluation of the code at a failing input.  `main` renders with
autoescaping off (it renders through a fresh default `Environment()`,
because `create_template_env` overwrote its own `from_string` method
with the template string), so for an account whose identifier contains
HTML-significant characters the rendered table cell holds the
identifier verbatim — not its escaped form, which differs — and the raw
identifier occurs as a substring of the full document `main` writes.
This contradicts the claim that identifiers appear escaped and that no
raw HTML-significant identifier character reaches the output. -/
theorem c1_identifier_rendered_unescaped :
    jinja_default_autoescape = false ∧
    render_row jinja_default_autoescape (account_row exEmptyPds exEvilDid)
      = "\n                <tr>\n                    <td><b>x</b></td>\n                    <td>Error</td>\n                    <td>Error</td>\n                    <td>0.0 B</td>\n                </tr>\n                " ∧
    jinja_escape exEvilDid = "&lt;b&gt;x&lt;/b&gt;" ∧
    exEvilDid.toList <:+:
      (main_output exSysInputs exEvilTable exEmptyPds "/pds" "2026-01-01 00:00:00").toList := by
  refine ⟨rfl, by decide, by decide, ?_⟩
  have hrow : exEvilDid.toList <:+:
      (render_usage_rows jinja_default_autoescape
        (build_usage_list exEmptyPds (get_account_data exEvilTable).2)).toList := by decide
  simp only [main_output, rendered_html]
  rw [toList_append]
  refine infix_append_left _ ?_
  rw [toList_append]
  exact infix_append_right _ hrow
